import Mathlib

/-!
Verification of the petsseries client library (auth.py, api.py, models.py)
against its natural-language specification.

The Python source is shallowly embedded: every stateful method of
`AuthManager` (auth.py) and `PetsSeriesClient` (api.py) becomes a Lean
function that takes the relevant state explicitly, returns the new state,
an `Except PyErr` result (Python exceptions), and the list of observable
side effects (network calls and credential-file writes) it performed, in
order.  Clock reads (`get_current_time`, from the repository's utils
module, absent from the sources given) are threaded as an integer
parameter `now`; HTTP responses are supplied as explicit inputs.
-/

namespace PetsSeries

/-- Claims carried inside a JWT access token, as read by `jwt.decode`
(auth.py uses only the `client_id` and `exp` claims; each may be absent). -/
structure Claims where
  client_id : Option String
  exp : Option Int
  deriving DecidableEq, Repr

/-- A Python token string.  `jwt` is a well-formed JWT carrying the given
claims payload; `raw s` is any other string (on which `jwt.decode` raises
`DecodeError`).  The empty string `raw ""` is Python-falsy. -/
inductive Tok where
  | jwt (c : Claims)
  | raw (s : String)
  deriving DecidableEq, Repr

/-- Python truthiness of an optional token string: `None` and `""` are
falsy, every other string is truthy (a well-formed JWT is never empty). -/
def Tok.truthy : Option Tok → Bool
  | none => false
  | some (.raw s) => s ≠ ""
  | some (.jwt _) => true

/-- A JSON value stored in the credential file `tokens.json`: the file
written by `save_tokens` maps each key to a string or to `null`. -/
inductive JVal where
  | null
  | str (t : Tok)
  deriving DecidableEq, Repr

/-- The parsed credential document: a JSON object, i.e. an association
list from keys to values (auth.py reads it with `json.loads`). -/
abbrev FileDoc := List (String × JVal)

/-- Python exceptions raised by the embedded code. -/
inductive PyErr where
  | authError (msg : String)
  | valueError (msg : String)
  | keyError (k : String)
  | clientResponseError (status : Nat) (message : String)
  deriving DecidableEq, Repr

/-- Observable side effects, in program order: network calls and
credential-file writes. -/
inductive Effect where
  | httpPost (url : String)
  | httpGet (url : String)
  | httpPatch (url : String)
  | filePersist (doc : FileDoc)
  deriving DecidableEq, Repr

/-- In-memory and persisted state owned by `AuthManager` (auth.py):
the two token slots and the credential file (`none` = file absent). -/
structure AuthState where
  access_token : Option Tok
  refresh_token : Option Tok
  file : Option FileDoc
  deriving DecidableEq, Repr

/-- Python `dict.get(k)` on a parsed JSON object, where a JSON `null`
becomes Python `None`: absent key and `null` value both yield `none`. -/
def pyGet (d : FileDoc) (k : String) : Option Tok :=
  match d.lookup k with
  | none => none
  | some .null => none
  | some (.str t) => some t

/-- JSON value written by `json.dumps` for an optional token string. -/
def toJVal : Option Tok → JVal
  | none => .null
  | some t => .str t

/-- Model of `jwt.decode(token, options={"verify_signature": False})`:
structural decoding of the claims payload, raising `DecodeError` (caught
and rewrapped as `AuthError` by auth.py) on a non-JWT string. -/
def jwtDecode : Tok → Except PyErr Claims
  | .jwt c => .ok c
  | .raw _ => .error (.authError "Error decoding JWT")

/-- AuthManager.get_client_id (auth.py:66-84): decode the current access
token and return its `client_id` claim; `if not client_id` also rejects
an empty string. -/
def get_client_id (st : AuthState) : Except PyErr String :=
  match st.access_token with
  | none => .error (.authError "Access token is None")
  | some t =>
    match jwtDecode t with
    | .error e => .error e
    | .ok c =>
      match c.client_id with
      | none => .error (.authError "client_id not found in token")
      | some s =>
        if s = "" then .error (.authError "client_id not found in token")
        else .ok s

/-- AuthManager.get_expiration (auth.py:86-103): decode the current
access token and return its `exp` claim. -/
def get_expiration (st : AuthState) : Except PyErr Int :=
  match st.access_token with
  | none => .error (.authError "Access token is None")
  | some t =>
    match jwtDecode t with
    | .error e => .error e
    | .ok c =>
      match c.exp with
      | none => .error (.authError "Expiration time (exp) not found in token")
      | some e => .ok e

/-- AuthManager.is_token_expired (auth.py:105-110): the token counts as
expired exactly when `exp < current_time` (a strict comparison in the
source). -/
def is_token_expired (st : AuthState) (now : Int) : Except PyErr Bool :=
  match get_expiration st with
  | .error e => .error e
  | .ok exp => .ok (exp < now)

/-- The JSON object `{"access_token": ..., "refresh_token": ...}` that
`save_tokens` serializes from the current in-memory pair (auth.py:173-176). -/
def tokensDoc (st : AuthState) : FileDoc :=
  [("access_token", toJVal st.access_token),
   ("refresh_token", toJVal st.refresh_token)]

/-- AuthManager.save_tokens (auth.py:164-182) with explicit keyword
arguments: each argument is adopted only when Python-truthy
(`if access_token:` ...), then the current pair is written wholesale to
`tokens.json`.  The `id_token` slot is never read back and is omitted. -/
def save_tokens (st : AuthState) (access_token refresh_token : Option Tok) :
    AuthState × List Effect :=
  let st := if Tok.truthy access_token then { st with access_token := access_token } else st
  let st := if Tok.truthy refresh_token then { st with refresh_token := refresh_token } else st
  let doc := tokensDoc st
  ({ st with file := some doc }, [.filePersist doc])

/-- AuthManager.save_tokens called with no arguments, as done by
`load_tokens` and `refresh_access_token`. -/
def save_tokens0 (st : AuthState) : AuthState × List Effect :=
  save_tokens st none none

/-- AuthManager.load_tokens (auth.py:45-64): read and parse the
credential file into the two token slots; when the file is absent, fail
with `AuthError` unless both constructor-supplied tokens are present, in
which case persist them. -/
def load_tokens (st : AuthState) : Except PyErr Unit × AuthState × List Effect :=
  match st.file with
  | some doc =>
    (.ok (), { st with access_token := pyGet doc "access_token",
                       refresh_token := pyGet doc "refresh_token" }, [])
  | none =>
    if st.access_token = none ∨ st.refresh_token = none then
      (.error (.authError "Token file not found and no tokens provided."), st, [])
    else
      let (st', fx) := save_tokens0 st
      (.ok (), st', fx)

/-- Outcome of the POST to the identity provider's token endpoint:
either an HTTP response (`body` is its JSON object, read only on status
200; `text` its raw text, read only on other statuses) or a network
failure (`aiohttp.ClientError`). -/
inductive RefreshHttp where
  | resp (status : Nat) (body : FileDoc) (text : String)
  | netErr (msg : String)
  deriving DecidableEq, Repr

/-- The identity provider's token endpoint URL (auth.py:115). -/
def tokenUrl : String :=
  "https://cdc.accounts.home.id/oidc/op/v1.0/4_JGZWlP8eQHpEqkvQElolbA/token"

/-- AuthManager.refresh_access_token (auth.py:112-154): extract
`client_id` from the current access token, POST the refresh exchange,
and on HTTP 200 replace both token slots from the response body (absent
fields become `None`) and persist them; on any other status or a network
failure raise `AuthError` leaving state untouched. -/
def refresh_access_token (st : AuthState) (r : RefreshHttp) :
    Except PyErr FileDoc × AuthState × List Effect :=
  match get_client_id st with
  | .error e => (.error e, st, [])
  | .ok _ =>
    match r with
    | .netErr msg =>
      (.error (.authError ("Request exception during token refresh: " ++ msg)),
       st, [.httpPost tokenUrl])
    | .resp status body text =>
      if status = 200 then
        let st1 := { st with access_token := pyGet body "access_token",
                             refresh_token := pyGet body "refresh_token" }
        let (st2, fx) := save_tokens0 st1
        (.ok body, st2, .httpPost tokenUrl :: fx)
      else
        (.error (.authError ("Failed to refresh token: " ++ text)),
         st, [.httpPost tokenUrl])

/-- AuthManager.get_access_token (auth.py:156-162): load tokens when the
access slot is empty, refresh when expired (consuming `r`), and return
the current access token. -/
def get_access_token (st : AuthState) (now : Int) (r : RefreshHttp) :
    Except PyErr (Option Tok) × AuthState × List Effect :=
  let (res₀, st₀, fx₀) :=
    if st.access_token = none then load_tokens st else (.ok (), st, [])
  match res₀ with
  | .error e => (.error e, st₀, fx₀)
  | .ok () =>
    match is_token_expired st₀ now with
    | .error e => (.error e, st₀, fx₀)
    | .ok true =>
      match refresh_access_token st₀ r with
      | (.error e, st₁, fx₁) => (.error e, st₁, fx₀ ++ fx₁)
      | (.ok _, st₁, fx₁) => (.ok st₁.access_token, st₁, fx₀ ++ fx₁)
    | .ok false => (.ok st₀.access_token, st₀, fx₀)

/-- Runtime state of `PetsSeriesClient` (api.py): the wrapped
`AuthManager` state, the bearer token currently baked into
`self.headers` (`none` while `self.headers` is still `{}`), and whether
the lazily created `aiohttp.ClientSession` exists. -/
structure ClientState where
  auth : AuthState
  bearer : Option (Option Tok)
  sessionOpen : Bool
  deriving DecidableEq, Repr

/-- PetsSeriesClient._refresh_headers (api.py:81-100): fetch the current
access token via `get_access_token` (which may itself load or refresh,
consuming `r`) and rebuild the bearer header set from it. -/
def refresh_headers (c : ClientState) (now : Int) (r : RefreshHttp) :
    Except PyErr Unit × ClientState × List Effect :=
  match get_access_token c.auth now r with
  | (.error e, st', fx) => (.error e, { c with auth := st' }, fx)
  | (.ok tok, st', fx) => (.ok (), { c with auth := st', bearer := some tok }, fx)

/-- PetsSeriesClient._ensure_token_valid (api.py:112-119): when the
access token is expired, refresh it (consuming `r₁`) and rebuild the
headers (whose inner `get_access_token` may consume `r₂` if the freshly
installed token is itself expired); otherwise do nothing. -/
def ensure_token_valid (c : ClientState) (now : Int) (r₁ r₂ : RefreshHttp) :
    Except PyErr Unit × ClientState × List Effect :=
  match is_token_expired c.auth now with
  | .error e => (.error e, c, [])
  | .ok false => (.ok (), c, [])
  | .ok true =>
    match refresh_access_token c.auth r₁ with
    | (.error e, st', fx) => (.error e, { c with auth := st' }, fx)
    | (.ok _, st', fx) =>
      match refresh_headers { c with auth := st' } now r₂ with
      | (res, c', fx') => (res, c', fx ++ fx')

/-- Remainder of the character list after the first occurrence of the
three-character separator `://`, or `none` when it does not occur. -/
def afterSchemeSep : List Char → Option (List Char)
  | [] => none
  | ':' :: '/' :: '/' :: rest => some rest
  | _ :: cs => afterSchemeSep cs

/-- Path component of `urllib.parse.urlparse(u)` for the hierarchical
URL references the client handles: the fragment (after `#`) and query
(after `?`) are stripped; for an absolute URL the `scheme://netloc`
prefix is removed, the path being what follows the authority's first
`/` (empty when the authority has no path); a reference with no
`scheme://` is all path. -/
def pyUrlPath (u : String) : String :=
  let cs := u.data
  let cs := cs.takeWhile (· ≠ '#')
  let cs := cs.takeWhile (· ≠ '?')
  match afterSchemeSep cs with
  | none => String.mk cs
  | some rest => String.mk (rest.dropWhile (· ≠ '/'))

/-- Python `urlparse(u).path.split("/")[-1]`: the trailing path segment,
i.e. everything after the last `/` of the path (the whole path when it
has no `/`; empty for a path ending in `/`). -/
def pyLastSegment (u : String) : String :=
  String.mk (((pyUrlPath u).data.reverse.takeWhile (· ≠ '/')).reverse)

/-- Meal record (models.py:65-89).  `portion_amount` is carried through
untouched by the client, so its numeric value is embedded as an
integer-coded constant; `url` is optional because `create_meal` stores
the `Location` header there, which may be Python `None`. -/
structure Meal where
  id : String
  name : String
  portion_amount : Int
  feed_time : String
  repeat_days : List Nat
  device_id : String
  enabled : Bool
  url : Option String
  deriving DecidableEq, Repr

/-- The fields of the caller-supplied `meal` argument that `create_meal`
reads (api.py:322-333); `feed_time` is its `isoformat()` string. -/
structure MealIn where
  name : String
  portion_amount : Int
  feed_time : String
  repeat_days : Option (List Nat)
  device_id : String
  deriving DecidableEq, Repr

/-- HTTP response to the `create_meal` POST: status, response headers,
reason phrase and body text. -/
structure CreateResp where
  status : Nat
  headers : List (String × String)
  reason : String
  text : String
  deriving DecidableEq, Repr

/-- Base URL of the resource backend (config.py / api.py). -/
def baseUrl : String :=
  "https://petsseries-backend.prod.eu-hs.iot.versuni.com"

/-- PetsSeriesClient.create_meal (api.py:298-372): POST the meal
payload; on 201 recover the new id from the trailing path segment of the
`Location` header (an absent header is only logged; `urlparse(None)`
coerces `None` to `""`) and return a fresh record; on an error status
raise `ClientResponseError`; on any other status fall off the function,
returning Python `None`. -/
def create_meal (c : ClientState) (now : Int) (r₁ r₂ : RefreshHttp)
    (homeId : String) (m : MealIn) (resp : CreateResp) :
    Except PyErr (Option Meal) × ClientState × List Effect :=
  match ensure_token_valid c now r₁ r₂ with
  | (.error e, c', fx) => (.error e, c', fx)
  | (.ok (), c', fx) =>
    let repeat_days := m.repeat_days.getD [1, 2, 3, 4, 5, 6, 7]
    let c'' := { c' with sessionOpen := true }
    let fx := fx ++ [.httpPost (baseUrl ++ "/api/homes/" ++ homeId ++ "/meals")]
    if resp.status = 201 then
      let location := resp.headers.lookup "Location"
      let meal_id := pyLastSegment (location.getD "")
      (.ok (some { id := meal_id, name := m.name,
                   portion_amount := m.portion_amount,
                   feed_time := m.feed_time, repeat_days := repeat_days,
                   device_id := m.device_id, enabled := true,
                   url := location }), c'', fx)
    else if resp.status ≥ 400 then
      (.error (.clientResponseError resp.status resp.reason), c'', fx)
    else
      (.ok none, c'', fx)

/-- Home record (models.py:35-54). -/
structure Home where
  id : String
  name : String
  shared : Bool
  number_of_devices : Nat
  external_id : String
  number_of_activities : Nat
  deriving DecidableEq, Repr

/-- One element of the JSON array returned by the homes endpoint, with
its wire field names (api.py:183-190 reads these keys). -/
structure HomeWire where
  idW : String
  nameW : String
  sharedW : Bool
  numberOfDevices : Nat
  externalId : String
  numberOfActivities : Nat
  deriving DecidableEq, Repr

/-- HTTP response to the homes GET, with its body already parsed as the
JSON array of home objects (field presence is not at issue here).
`text` is the raw body text as it stands on the wire; `get_homes` never
reads it on the failure path (`raise_for_status` fires before any body
read). -/
structure HomesResp where
  status : Nat
  reason : String
  body : List HomeWire
  text : String
  deriving DecidableEq, Repr

/-- PetsSeriesClient.get_homes (api.py:170-199): GET the homes URL,
raise `ClientResponseError` via `raise_for_status` on an error status
(aiohttp raises exactly when `status >= 400`, carrying the status and
the reason phrase as its message), otherwise map the JSON array into
`Home` records. -/
def get_homes (c : ClientState) (now : Int) (r₁ r₂ : RefreshHttp)
    (resp : HomesResp) :
    Except PyErr (List Home) × ClientState × List Effect :=
  match ensure_token_valid c now r₁ r₂ with
  | (.error e, c', fx) => (.error e, c', fx)
  | (.ok (), c', fx) =>
    let c'' := { c' with sessionOpen := true }
    let fx := fx ++ [.httpGet (baseUrl ++ "/api/v1/home-management/available-homes")]
    if resp.status ≥ 400 then
      (.error (.clientResponseError resp.status resp.reason), c'', fx)
    else
      (.ok (resp.body.map fun h =>
        { id := h.idW, name := h.nameW, shared := h.sharedW,
          number_of_devices := h.numberOfDevices,
          external_id := h.externalId,
          number_of_activities := h.numberOfActivities }), c'', fx)

/-- HTTP response to the device-settings PATCH: status, reason phrase
and body text (the body is read only to be logged). -/
structure PatchResp where
  status : Nat
  reason : String
  text : String
  deriving DecidableEq, Repr

/-- PetsSeriesClient.update_device_settings (api.py:780-816): PATCH the
settings payload; 204 returns `True`; otherwise the body text is logged
and `raise_for_status` raises `ClientResponseError` when
`status >= 400`; a remaining (non-204, non-error) status falls through
to the trailing `return False`. -/
def update_device_settings (c : ClientState) (now : Int) (r₁ r₂ : RefreshHttp)
    (homeId deviceId : String) (_settings : List (String × Bool))
    (resp : PatchResp) :
    Except PyErr Bool × ClientState × List Effect :=
  match ensure_token_valid c now r₁ r₂ with
  | (.error e, c', fx) => (.error e, c', fx)
  | (.ok (), c', fx) =>
    let c'' := { c' with sessionOpen := true }
    let fx := fx ++
      [.httpPatch (baseUrl ++ "/api/homes/" ++ homeId ++ "/modes/home/devices/" ++ deviceId)]
    if resp.status = 204 then
      (.ok true, c'', fx)
    else if resp.status ≥ 400 then
      (.error (.clientResponseError resp.status resp.reason), c'', fx)
    else
      (.ok false, c'', fx)

/-- EventType enum (models.py:159-165), in declaration order. -/
inductive EventType where
  | motion_detected
  | meal_dispensed
  | meal_upcoming
  | food_level_low
  deriving DecidableEq, Repr

/-- Event.get_event_types (models.py:191-194): `list(EventType)`, the
enum members in declaration order. -/
def get_event_types : List EventType :=
  [.motion_detected, .meal_dispensed, .meal_upcoming, .food_level_low]

/-- A Python value as it appears in the membership test of `get_events`:
either a `str` or an `EventType` enum member. -/
inductive PyObj where
  | pstr (s : String)
  | pmem (e : EventType)
  deriving DecidableEq, Repr

/-- Python `==` on such values: strings compare by content, enum members
by identity, and a `str` never equals an `Enum` member (both operands
return `NotImplemented`, so `==` is `False`). -/
def pyEq : PyObj → PyObj → Bool
  | .pstr a, .pstr b => a = b
  | .pmem a, .pmem b => a = b
  | _, _ => false

/-- Python `x in l`: membership via `==`. -/
def pyMem (x : PyObj) (l : List PyObj) : Bool :=
  l.any (pyEq x)

/-- An event payload as received from the backend: a JSON object.  Every
field the parser reads is carried as an opaque string (the client never
computes with field values, only stores them). -/
abbrev EventDict := List (String × String)

/-- Parsed event records.  The first nine constructors mirror the Event
subclasses dispatched in api.py:601-754; every field is optional because
they are filled via `dict.get`.  The `generic` fallback (api.py:748-754)
uses subscript access, so its common fields are mandatory.

Modelled from the spec: the class definitions of `MealEnabledEvent`,
`FilterReplacementDueEvent`, `FoodOutletStuckEvent`,
`DeviceOfflineEvent` and `DeviceOnlineEvent` are imported by api.py but
are not among the given sources; their shapes follow the spec's closed
tagged-union description and the constructor calls in api.py. -/
inductive PEvent where
  | motion (id ty source time url cluster_id metadata thumbnail_key
      device_id device_name thumbnail_url product_ctn
      device_external_id : Option String)
  | mealDispensed (id ty source time url cluster_id metadata meal_name
      device_id meal_url meal_amount device_name device_external_id
      product_ctn : Option String)
  | mealUpcoming (id ty source time url cluster_id metadata meal_name
      device_id meal_url meal_amount device_name device_external_id
      product_ctn : Option String)
  | foodLevelLow (id ty source time url cluster_id metadata device_id
      device_name product_ctn device_external_id : Option String)
  | mealEnabled (id ty source time url cluster_id metadata meal_amount
      meal_url device_external_id product_ctn meal_time device_id
      device_name meal_repeat_days : Option String)
  | filterReplacementDue (id ty source time url cluster_id metadata
      device_id device_name product_ctn device_external_id : Option String)
  | foodOutletStuck (id ty source time url cluster_id metadata device_id
      device_name product_ctn device_external_id : Option String)
  | deviceOffline (id ty source time url cluster_id metadata device_id
      device_name product_ctn device_external_id : Option String)
  | deviceOnline (id ty source time url cluster_id metadata device_id
      device_name product_ctn device_external_id : Option String)
  | generic (id : String) (ty : Option String) (source time url : String)
  deriving DecidableEq, Repr

/-- PetsSeriesClient.parse_event (api.py:601-754): dispatch on the
payload's `type` string; each recognized tag builds its record entirely
through `dict.get` (total); any other tag is logged and falls to the
generic arm, which reads the common fields with subscript access and so
raises `KeyError` at the first one absent (Python keyword-argument
evaluation order: id, source, time, url). -/
def parse_event (e : EventDict) : Except PyErr PEvent :=
  let g := fun k => e.lookup k
  match g "type" with
  | some "motion_detected" =>
    .ok (.motion (g "id") (some "motion_detected") (g "source") (g "time")
      (g "url") (g "clusterId") (g "metadata") (g "thumbnailKey")
      (g "deviceId") (g "deviceName") (g "thumbnailUrl") (g "productCtn")
      (g "deviceExternalId"))
  | some "meal_dispensed" =>
    .ok (.mealDispensed (g "id") (some "meal_dispensed") (g "source")
      (g "time") (g "url") (g "clusterId") (g "metadata") (g "mealName")
      (g "deviceId") (g "mealUrl") (g "mealAmount") (g "deviceName")
      (g "deviceExternalId") (g "productCtn"))
  | some "meal_upcoming" =>
    .ok (.mealUpcoming (g "id") (some "meal_upcoming") (g "source")
      (g "time") (g "url") (g "clusterId") (g "metadata") (g "mealName")
      (g "deviceId") (g "mealUrl") (g "mealAmount") (g "deviceName")
      (g "deviceExternalId") (g "productCtn"))
  | some "food_level_low" =>
    .ok (.foodLevelLow (g "id") (some "food_level_low") (g "source")
      (g "time") (g "url") (g "clusterId") (g "metadata") (g "deviceId")
      (g "deviceName") (g "productCtn") (g "deviceExternalId"))
  | some "meal_enabled" =>
    .ok (.mealEnabled (g "id") (some "meal_enabled") (g "source")
      (g "time") (g "url") (g "clusterId") (g "metadata") (g "mealAmount")
      (g "mealUrl") (g "deviceExternalId") (g "productCtn") (g "mealTime")
      (g "deviceId") (g "deviceName") (g "mealRepeatDays"))
  | some "filter_replacement_due" =>
    .ok (.filterReplacementDue (g "id") (some "filter_replacement_due")
      (g "source") (g "time") (g "url") (g "clusterId") (g "metadata")
      (g "deviceId") (g "deviceName") (g "productCtn")
      (g "deviceExternalId"))
  | some "food_outlet_stuck" =>
    .ok (.foodOutletStuck (g "id") (some "food_outlet_stuck") (g "source")
      (g "time") (g "url") (g "clusterId") (g "metadata") (g "deviceId")
      (g "deviceName") (g "productCtn") (g "deviceExternalId"))
  | some "device_offline" =>
    .ok (.deviceOffline (g "id") (some "device_offline") (g "source")
      (g "time") (g "url") (g "clusterId") (g "metadata") (g "deviceId")
      (g "deviceName") (g "productCtn") (g "deviceExternalId"))
  | some "device_online" =>
    .ok (.deviceOnline (g "id") (some "device_online") (g "source")
      (g "time") (g "url") (g "clusterId") (g "metadata") (g "deviceId")
      (g "deviceName") (g "productCtn") (g "deviceExternalId"))
  | ty =>
    match e.lookup "id" with
    | none => .error (.keyError "id")
    | some i =>
      match e.lookup "source" with
      | none => .error (.keyError "source")
      | some s =>
        match e.lookup "time" with
        | none => .error (.keyError "time")
        | some t =>
          match e.lookup "url" with
          | none => .error (.keyError "url")
          | some u => .ok (.generic i ty s t u)

/-- HTTP response to the events GET: status, reason phrase, and the
`item` array of event payloads from the JSON body. -/
structure EventsResp where
  status : Nat
  reason : String
  item : List EventDict
  deriving DecidableEq, Repr

/-- PetsSeriesClient.get_events (api.py:564-599): ensure the token is
valid, then reject any `types` argument other than `"none"` that is not
a member of `Event.get_event_types()` with `ValueError` before building
the URL or issuing the events request; otherwise GET the events URL
(`clustered=true`; percent-encoding of the date bounds is not inspected
by any claim and is left as the raw strings) and parse every payload of
the body's `item` array. -/
def get_events (c : ClientState) (now : Int) (r₁ r₂ : RefreshHttp)
    (homeId fromDate toDate : String) (types : String)
    (resp : EventsResp) :
    Except PyErr (List PEvent) × ClientState × List Effect :=
  match ensure_token_valid c now r₁ r₂ with
  | (.error e, c', fx) => (.error e, c', fx)
  | (.ok (), c', fx) =>
    if ¬ pyMem (.pstr types) (get_event_types.map .pmem) ∧ types ≠ "none" then
      (.error (.valueError ("Invalid event type '" ++ types ++ "'")), c', fx)
    else
      let types_param := if types ≠ "none" then "&types=" ++ types else ""
      let url := baseUrl ++ "/api/homes/" ++ homeId ++ "/events?from=" ++
        fromDate ++ "&to=" ++ toDate ++ "&clustered=true" ++ types_param
      let c'' := { c' with sessionOpen := true }
      let fx := fx ++ [.httpGet url]
      if resp.status ≥ 400 then
        (.error (.clientResponseError resp.status resp.reason), c'', fx)
      else
        match resp.item.mapM parse_event with
        | .error e => (.error e, c'', fx)
        | .ok evs => (.ok evs, c'', fx)

/-! ### Interleaving model of concurrent `get_access_token` calls

asyncio is single-threaded and cooperative: a task can only be
interleaved at a real suspension point.  Inside `get_access_token`
(auth.py:156-162) the expiry check and `get_client_id` run
synchronously; the first genuine suspension is the `session.post` of the
refresh exchange (auth.py:133).  Each task below therefore executes
`get_access_token` (with tokens already loaded) in two atomic slices:
from entry up to issuing the POST, and from receiving the 200 response
(tokens replaced and saved, auth.py:135-141) to returning. -/

instance instDecEqExcept {ε α : Type} [DecidableEq ε] [DecidableEq α] :
    DecidableEq (Except ε α) := fun a b =>
  match a, b with
  | .error x, .error y =>
    if h : x = y then .isTrue (congrArg Except.error h)
    else .isFalse (fun he => h (Except.error.inj he))
  | .ok x, .ok y =>
    if h : x = y then .isTrue (congrArg Except.ok h)
    else .isFalse (fun he => h (Except.ok.inj he))
  | .error _, .ok _ => .isFalse (fun he => Except.noConfusion he)
  | .ok _, .error _ => .isFalse (fun he => Except.noConfusion he)

/-- Program counter of one task running `get_access_token`. -/
inductive TaskPc where
  | ready
  | posted
  | finished (res : Except PyErr (Option Tok))
  deriving DecidableEq, Repr

/-- Shared state of two concurrent `get_access_token` callers: the one
`AuthManager`'s state, the number of refresh POSTs issued so far, and
each task's program counter. -/
structure ConcState where
  st : AuthState
  posts : Nat
  pcA : TaskPc
  pcB : TaskPc
  deriving DecidableEq, Repr

/-- Run one task for one atomic slice.  At `ready` it executes
`get_access_token` up to its first suspension: the expiry check on the
shared state (auth.py:160), returning at once when not expired, and
otherwise `get_client_id` followed by the refresh POST (auth.py:116,
133), where it suspends.  At `posted` the provider's 200 response
(body `fresh`) arrives: both token slots are replaced and persisted
(auth.py:135-141) and the task returns the new access token. -/
def stepTask (now : Int) (fresh : FileDoc) (pc : TaskPc) (st : AuthState) :
    TaskPc × AuthState × Nat :=
  match pc with
  | .ready =>
    match is_token_expired st now with
    | .error e => (.finished (.error e), st, 0)
    | .ok false => (.finished (.ok st.access_token), st, 0)
    | .ok true =>
      match get_client_id st with
      | .error e => (.finished (.error e), st, 0)
      | .ok _ => (.posted, st, 1)
  | .posted =>
    let st1 := { st with access_token := pyGet fresh "access_token",
                         refresh_token := pyGet fresh "refresh_token" }
    let (st2, _) := save_tokens0 st1
    (.finished (.ok st2.access_token), st2, 0)
  | .finished r => (.finished r, st, 0)

/-- Run one scheduler step: `false` steps task A, `true` steps task B. -/
def stepSched (now : Int) (fresh : FileDoc) (s : ConcState) (who : Bool) :
    ConcState :=
  if who then
    let (pc, st, d) := stepTask now fresh s.pcB s.st
    { s with st := st, pcB := pc, posts := s.posts + d }
  else
    let (pc, st, d) := stepTask now fresh s.pcA s.st
    { s with st := st, pcA := pc, posts := s.posts + d }

/-- Run a whole schedule, left to right. -/
def runSched (now : Int) (fresh : FileDoc) (sched : List Bool)
    (s : ConcState) : ConcState :=
  sched.foldl (stepSched now fresh) s

/-! ### Concrete fixtures used by witnesses and counterexamples -/

/-- An access token whose `exp` claim lies far in the future of the
fixture clock value `10`. -/
def tokValid : Tok := .jwt ⟨some "cid", some 1000⟩

/-- An access token whose `exp` claim lies in the past of the fixture
clock value `10`. -/
def tokExpired : Tok := .jwt ⟨some "cid", some 0⟩

/-- A persisted credential document holding the expired pair. -/
def doc0 : FileDoc := [("access_token", .str tokExpired), ("refresh_token", .str (.raw "r0"))]

/-- Auth state holding the expired access token. -/
def authExpired : AuthState := ⟨some tokExpired, some (.raw "r0"), some doc0⟩

/-- Auth state holding the valid access token. -/
def authValid : AuthState := ⟨some tokValid, some (.raw "r0"), some doc0⟩

/-- Client whose auth state holds the valid access token. -/
def cValid : ClientState := ⟨authValid, some (some tokValid), true⟩

/-- Token-endpoint 200 response body installing a fresh pair. -/
def freshDoc : FileDoc :=
  [("access_token", .str (.jwt ⟨some "cid", some 1000⟩)),
   ("refresh_token", .str (.raw "r1"))]

/-- A refresh response that no examined code path consumes. -/
def rUnused : RefreshHttp := .netErr "unused"

/-- When the expiry check reports the token valid,
`_ensure_token_valid` returns immediately: no state change, no
effects. -/
lemma ensure_token_valid_of_not_expired (c : ClientState) (now : Int)
    (r₁ r₂ : RefreshHttp) (hv : is_token_expired c.auth now = .ok false) :
    ensure_token_valid c now r₁ r₂ = (.ok (), c, []) := by
  unfold ensure_token_valid
  rw [hv]

/-! ### Claims -/

/-- C1: the claim asserts that N concurrent `get_access_token` calls on
an expired token issue exactly one refresh exchange, enforced by a
mutual-exclusion gate.  `AuthManager` has no such gate: with two
concurrent callers and the schedule A, B (task A suspends at the refresh
POST of auth.py:133, then task B runs its expiry check on the still
unrefreshed shared state), both tasks are suspended at a refresh POST at
once and two exchanges have been issued; completing the schedule still
leaves the POST count at two. -/
theorem c1_double_refresh_interleaving :
    (runSched 10 freshDoc [false, true] ⟨authExpired, 0, .ready, .ready⟩).posts = 2 ∧
    (runSched 10 freshDoc [false, true] ⟨authExpired, 0, .ready, .ready⟩).pcA = .posted ∧
    (runSched 10 freshDoc [false, true] ⟨authExpired, 0, .ready, .ready⟩).pcB = .posted ∧
    (runSched 10 freshDoc [false, true, false, true] ⟨authExpired, 0, .ready, .ready⟩).posts = 2 := by
  decide

/-- C2 counterexample: the claim asserts a token whose `exp` equals the
current clock is classified expired, so `ensure_valid` refreshes.  On
the code (`exp < current_time`, auth.py:110) such a token is *not*
expired, and `_ensure_token_valid` performs no refresh: here
`exp = now = 100` yields `ok false` and an effect-free no-op. -/
theorem c2_exp_eq_now_not_expired :
    is_token_expired ⟨some (.jwt ⟨some "cid", some 100⟩), some (.raw "r0"), none⟩ 100 =
      .ok false ∧
    ensure_token_valid ⟨⟨some (.jwt ⟨some "cid", some 100⟩), some (.raw "r0"), none⟩,
        none, false⟩ 100 rUnused rUnused =
      (.ok (), ⟨⟨some (.jwt ⟨some "cid", some 100⟩), some (.raw "r0"), none⟩,
        none, false⟩, []) := by
  decide

/-- C2 amended: the expiry predicate is exactly `exp < now()` (strict):
a token with `exp == now()` is valid and one with `exp == now() - 1`
(equivalently, checked at `now = exp + 1`) is expired. -/
theorem c2_expiry_strict (cid : Option String) (e now : Int)
    (rt : Option Tok) (f : Option FileDoc) :
    is_token_expired ⟨some (.jwt ⟨cid, some e⟩), rt, f⟩ now = .ok (decide (e < now)) ∧
    is_token_expired ⟨some (.jwt ⟨cid, some e⟩), rt, f⟩ e = .ok false ∧
    is_token_expired ⟨some (.jwt ⟨cid, some e⟩), rt, f⟩ (e + 1) = .ok true := by
  refine ⟨rfl, ?_, ?_⟩ <;> simp [is_token_expired, get_expiration, jwtDecode]

/-- C8: calling `_ensure_token_valid` while the current access token is
not expired changes nothing — same tokens, same bearer headers, same
connection handle — and performs no network call and no credential-file
write. -/
theorem c8_ensure_valid_is_noop (c : ClientState) (now : Int)
    (r₁ r₂ : RefreshHttp) (hv : is_token_expired c.auth now = .ok false) :
    ensure_token_valid c now r₁ r₂ = (.ok (), c, []) :=
  ensure_token_valid_of_not_expired c now r₁ r₂ hv

/-- C8 witness: a concrete client with an unexpired token. -/
theorem c8_witness :
    is_token_expired cValid.auth 10 = .ok false ∧
    ensure_token_valid cValid 10 rUnused rUnused = (.ok (), cValid, []) :=
  ⟨by decide, c8_ensure_valid_is_noop cValid 10 rUnused rUnused (by decide)⟩

/-- Refresh attempts in which the token endpoint answered with a
non-200 status or the network call failed. -/
def RefreshHttp.failed : RefreshHttp → Prop
  | .netErr _ => True
  | .resp s _ _ => s ≠ 200

/-- C3: every failed refresh attempt (non-200 response or network
failure) raises `AuthError` and leaves the auth state — both in-memory
tokens and the persisted credential document — exactly as it was, with
no file write among the effects. -/
theorem c3_refresh_failure_no_mutation (st : AuthState) (r : RefreshHttp)
    (hr : r.failed) :
    (∃ e : PyErr, (refresh_access_token st r).1 = .error e) ∧
    (refresh_access_token st r).2.1 = st ∧
    ∀ d : FileDoc, Effect.filePersist d ∉ (refresh_access_token st r).2.2 := by
  cases r with
  | netErr msg =>
    cases hcid : get_client_id st <;>
      simp [refresh_access_token, hcid]
  | resp status body text =>
    have h200 : status ≠ 200 := hr
    cases hcid : get_client_id st <;>
      simp [refresh_access_token, hcid, h200]

/-- C3 witness: a concrete 400 answer from the token endpoint leaves
`authExpired` untouched. -/
theorem c3_witness :
    RefreshHttp.failed (.resp 400 [] "bad") ∧
    ((∃ e : PyErr, (refresh_access_token authExpired (.resp 400 [] "bad")).1 = .error e) ∧
     (refresh_access_token authExpired (.resp 400 [] "bad")).2.1 = authExpired ∧
     ∀ d : FileDoc,
       Effect.filePersist d ∉ (refresh_access_token authExpired (.resp 400 [] "bad")).2.2) :=
  ⟨by simp [RefreshHttp.failed],
   c3_refresh_failure_no_mutation authExpired (.resp 400 [] "bad")
     (by simp [RefreshHttp.failed])⟩

/-- C4: saving a pair of truthy (non-empty) token strings and then
loading yields exactly the same pair back, through the persisted JSON
document. -/
theorem c4_save_load_round_trip (st : AuthState) (a r : Tok)
    (ha : Tok.truthy (some a)) (hr : Tok.truthy (some r)) :
    (load_tokens (save_tokens st (some a) (some r)).1).1 = .ok () ∧
    (load_tokens (save_tokens st (some a) (some r)).1).2.1.access_token = some a ∧
    (load_tokens (save_tokens st (some a) (some r)).1).2.1.refresh_token = some r := by
  have hb : (("refresh_token" : String) == "access_token") = false := by decide
  simp [save_tokens, load_tokens, tokensDoc, toJVal, pyGet, ha, hr, List.lookup, hb]

/-- C4 witness: the concrete non-empty pair "A" / "R" round-trips. -/
theorem c4_witness :
    Tok.truthy (some (.raw "A")) ∧ Tok.truthy (some (.raw "R")) ∧
    ((load_tokens (save_tokens authValid (some (.raw "A")) (some (.raw "R"))).1).1 = .ok () ∧
     (load_tokens (save_tokens authValid (some (.raw "A")) (some (.raw "R"))).1).2.1.access_token =
       some (.raw "A") ∧
     (load_tokens (save_tokens authValid (some (.raw "A")) (some (.raw "R"))).1).2.1.refresh_token =
       some (.raw "R")) :=
  ⟨by decide, by decide,
   c4_save_load_round_trip authValid (.raw "A") (.raw "R") (by decide) (by decide)⟩

/-- C10: whenever the token endpoint answers 200 (and the current token
yields a `client_id` so the exchange is reached), both in-memory slots
are unconditionally replaced by the body's `access_token` and
`refresh_token` fields — `None` when absent — and exactly that pair is
persisted to the credential file, with no error raised and no
validation of the new tokens. -/
theorem c10_refresh_200_replaces_tokens (st : AuthState) (body : FileDoc)
    (text : String) (hc : ∃ cid, get_client_id st = .ok cid) :
    refresh_access_token st (.resp 200 body text) =
      (.ok body,
       ⟨pyGet body "access_token", pyGet body "refresh_token",
        some [("access_token", toJVal (pyGet body "access_token")),
              ("refresh_token", toJVal (pyGet body "refresh_token"))]⟩,
       [.httpPost tokenUrl,
        .filePersist [("access_token", toJVal (pyGet body "access_token")),
                      ("refresh_token", toJVal (pyGet body "refresh_token"))]]) := by
  obtain ⟨cid, hcid⟩ := hc
  unfold refresh_access_token
  rw [hcid]
  simp [save_tokens0, save_tokens, tokensDoc, Tok.truthy]

/-- C10 witness: a 200 body that lacks `refresh_token` installs `none`
there and persists the pair, raising nothing. -/
theorem c10_witness :
    (∃ cid, get_client_id authExpired = .ok cid) ∧
    refresh_access_token authExpired (.resp 200 [("access_token", .str tokValid)] "") =
      (.ok [("access_token", .str tokValid)],
       ⟨some tokValid, none,
        some [("access_token", .str tokValid), ("refresh_token", .null)]⟩,
       [.httpPost tokenUrl,
        .filePersist [("access_token", .str tokValid), ("refresh_token", .null)]]) := by
  refine ⟨⟨"cid", rfl⟩, ?_⟩
  have h := c10_refresh_200_replaces_tokens authExpired
    [("access_token", .str tokValid)] "" ⟨"cid", rfl⟩
  simpa [pyGet, toJVal] using h

/-- C5: every `create_meal` call answered with HTTP 201 yields a `Meal`
record whose id is the trailing path segment of the `Location` response
header, and an absent header still yields a record (Python passes `None`
through `urlparse`, which coerces it to `""`, so the id is `""` and the
record's url is `None`) rather than failing record construction. -/
theorem c5_create_meal_location_id (c : ClientState) (now : Int)
    (r₁ r₂ : RefreshHttp) (homeId : String) (m : MealIn) (resp : CreateResp)
    (hv : is_token_expired c.auth now = .ok false)
    (h201 : resp.status = 201) :
    ∃ meal : Meal,
      (create_meal c now r₁ r₂ homeId m resp).1 = .ok (some meal) ∧
      meal.id = pyLastSegment ((resp.headers.lookup "Location").getD "") ∧
      meal.url = resp.headers.lookup "Location" := by
  refine ⟨⟨pyLastSegment ((resp.headers.lookup "Location").getD ""), m.name,
    m.portion_amount, m.feed_time, m.repeat_days.getD [1, 2, 3, 4, 5, 6, 7],
    m.device_id, true, resp.headers.lookup "Location"⟩, ?_, rfl, rfl⟩
  unfold create_meal
  rw [ensure_token_valid_of_not_expired c now r₁ r₂ hv]
  simp [h201]

/-- C5 witness: a 201 answer whose `Location` header ends in `M123`
yields a record with id `"M123"`. -/
theorem c5_witness :
    is_token_expired cValid.auth 10 = .ok false ∧
    (CreateResp.status ⟨201, [("Location", "https://host/api/homes/H/meals/M123")], "Created", ""⟩ = 201) ∧
    ∃ meal : Meal,
      (create_meal cValid 10 rUnused rUnused "H" ⟨"Breakfast", 2, "08:00:00", none, "D1"⟩
        ⟨201, [("Location", "https://host/api/homes/H/meals/M123")], "Created", ""⟩).1 =
          .ok (some meal) ∧
      meal.id = "M123" := by
  refine ⟨by decide, rfl, ?_⟩
  obtain ⟨meal, h1, h2, h3⟩ :=
    c5_create_meal_location_id cValid 10 rUnused rUnused "H"
      ⟨"Breakfast", 2, "08:00:00", none, "D1"⟩
      ⟨201, [("Location", "https://host/api/homes/H/meals/M123")], "Created", ""⟩
      (by decide) rfl
  refine ⟨meal, h1, ?_⟩
  rw [h2]
  decide

set_option maxHeartbeats 1600000 in
/-- C6: an event payload whose `type` tag is none of the nine recognized
tags but which carries the common fields id, source, time and url parses
to the generic base `Event` record built from exactly those fields,
raising nothing (the unknown tag is only logged). -/
theorem c6_unknown_event_generic (e : EventDict) (tag i s t u : String)
    (hty : e.lookup "type" = some tag)
    (hunk : tag ∉ (["motion_detected", "meal_dispensed", "meal_upcoming",
      "food_level_low", "meal_enabled", "filter_replacement_due",
      "food_outlet_stuck", "device_offline", "device_online"] : List String))
    (hi : e.lookup "id" = some i) (hs : e.lookup "source" = some s)
    (ht : e.lookup "time" = some t) (hu : e.lookup "url" = some u) :
    parse_event e = .ok (.generic i (some tag) s t u) := by
  simp only [List.mem_cons, List.not_mem_nil, or_false, not_or] at hunk
  obtain ⟨h1, h2, h3, h4, h5, h6, h7, h8, h9⟩ := hunk
  unfold parse_event
  dsimp only []
  rw [hty]
  split
  all_goals simp_all [hi, hs, ht, hu]

/-- C6 witness: a payload tagged `something_new` with the four common
fields decodes to the generic event record. -/
theorem c6_witness :
    List.lookup "type" [("type", "something_new"), ("id", "E1"), ("source", "S"),
      ("time", "T"), ("url", "U")] = some "something_new" ∧
    parse_event [("type", "something_new"), ("id", "E1"), ("source", "S"),
      ("time", "T"), ("url", "U")] =
      .ok (.generic "E1" (some "something_new") "S" "T" "U") :=
  ⟨by decide,
   c6_unknown_event_generic
     [("type", "something_new"), ("id", "E1"), ("source", "S"), ("time", "T"), ("url", "U")]
     "something_new" "E1" "S" "T" "U"
     (by decide) (by decide) (by decide) (by decide) (by decide) (by decide)⟩

/-- C7 counterexample: the claim says a non-2xx response surfaces an
error carrying both the status and the response body.  The code raises
via aiohttp's `raise_for_status`, whose `ClientResponseError` carries
the status and the HTTP *reason phrase* (`message=self.reason`); the
body text never enters the error.  Concretely, a 403 whose body is
`denied` and whose reason phrase is `Forbidden` surfaces an error whose
only message slot holds `Forbidden`, not the body. -/
theorem c7_error_lacks_body :
    (get_homes cValid 10 rUnused rUnused ⟨403, "Forbidden", [], "denied"⟩).1 =
      .error (.clientResponseError 403 "Forbidden") ∧
    ("Forbidden" : String) ≠ "denied" := by
  decide

/-- C7 amended: a response with status >= 400 from a resource call
fails with `ClientResponseError` carrying the response status and
reason phrase (the body is logged where the handler reads it, but not
attached to the error), the error is propagated rather than swallowed,
and exactly one request is issued — no retry. -/
theorem c7_status_reason_propagation (c : ClientState) (now : Int)
    (r₁ r₂ : RefreshHttp) (hr : HomesResp) (pr : PatchResp)
    (homeId deviceId : String) (settings : List (String × Bool))
    (hv : is_token_expired c.auth now = .ok false)
    (h4 : 400 ≤ hr.status) (p4 : 400 ≤ pr.status) :
    get_homes c now r₁ r₂ hr =
      (.error (.clientResponseError hr.status hr.reason),
       { c with sessionOpen := true },
       [.httpGet (baseUrl ++ "/api/v1/home-management/available-homes")]) ∧
    update_device_settings c now r₁ r₂ homeId deviceId settings pr =
      (.error (.clientResponseError pr.status pr.reason),
       { c with sessionOpen := true },
       [.httpPatch (baseUrl ++ "/api/homes/" ++ homeId ++ "/modes/home/devices/" ++ deviceId)]) := by
  have hne : pr.status ≠ 204 := by omega
  constructor
  · unfold get_homes
    rw [ensure_token_valid_of_not_expired c now r₁ r₂ hv]
    simp [ge_iff_le, h4]
  · unfold update_device_settings
    rw [ensure_token_valid_of_not_expired c now r₁ r₂ hv]
    simp [ge_iff_le, hne, p4]

/-- C7 witness: the concrete 403 of the counterexample, for both
embedded operations. -/
theorem c7_witness :
    is_token_expired cValid.auth 10 = .ok false ∧ (400 : Nat) ≤ 403 ∧
    (get_homes cValid 10 rUnused rUnused ⟨403, "Forbidden", [], "denied"⟩ =
      (.error (.clientResponseError 403 "Forbidden"),
       { cValid with sessionOpen := true },
       [.httpGet (baseUrl ++ "/api/v1/home-management/available-homes")]) ∧
     update_device_settings cValid 10 rUnused rUnused "H" "D" [] ⟨403, "Forbidden", "denied"⟩ =
      (.error (.clientResponseError 403 "Forbidden"),
       { cValid with sessionOpen := true },
       [.httpPatch (baseUrl ++ "/api/homes/" ++ "H" ++ "/modes/home/devices/" ++ "D")])) :=
  ⟨by decide, by decide,
   c7_status_reason_propagation cValid 10 rUnused rUnused
     ⟨403, "Forbidden", [], "denied"⟩ ⟨403, "Forbidden", "denied"⟩
     "H" "D" [] (by decide) (by decide) (by decide)⟩

/-- A Python `str` is never `==` to an `EventType` enum member, so the
membership test of `get_events` is false for every string argument. -/
lemma pyMem_str_event_types (s : String) :
    pyMem (.pstr s) (get_event_types.map .pmem) = false := by
  simp [pyMem, get_event_types, pyEq]

/-- C9: for every `types` string other than `"none"` — including the
documented event-type strings such as `"motion_detected"` —
`get_events` raises `ValueError` before building the events URL or
issuing the events request (here: with an unexpired token, before any
network traffic at all), because the membership test compares the
string against `EventType` enum members, which no string equals. -/
theorem c9_get_events_rejects_all_types (c : ClientState) (now : Int)
    (r₁ r₂ : RefreshHttp) (homeId fromDate toDate types : String)
    (resp : EventsResp) (h : types ≠ "none")
    (hv : is_token_expired c.auth now = .ok false) :
    get_events c now r₁ r₂ homeId fromDate toDate types resp =
      (.error (.valueError ("Invalid event type '" ++ types ++ "'")), c, []) := by
  unfold get_events
  rw [ensure_token_valid_of_not_expired c now r₁ r₂ hv]
  simp [pyMem_str_event_types, h]

/-- C9 witness: `"motion_detected"`, the flagship documented event-type
string, is rejected with `ValueError` and no request is issued. -/
theorem c9_witness :
    ("motion_detected" : String) ≠ "none" ∧
    is_token_expired cValid.auth 10 = .ok false ∧
    get_events cValid 10 rUnused rUnused "H" "F" "T" "motion_detected" ⟨200, "OK", []⟩ =
      (.error (.valueError ("Invalid event type '" ++ "motion_detected" ++ "'")), cValid, []) :=
  ⟨by decide, by decide,
   c9_get_events_rejects_all_types cValid 10 rUnused rUnused "H" "F" "T"
     "motion_detected" ⟨200, "OK", []⟩ (by decide) (by decide)⟩

end PetsSeries
